import Mathlib

/-!
# Verification of the chatter-bot hybrid provider dispatch and stores

Shallow embedding of the zustand stores in `src/lib/state.ts` /
`src/unnamed/part_000` (first document) and of the `sendMessage` dispatcher of
the `ChatAssistant` component (`src/unnamed/part_000`, second document).
Stateful React/zustand code is modelled as explicit state passing; the single
network call of one dispatch is modelled by passing its outcome in as a value
and returning the request that was built, so that theorems can talk about what
was sent and what was appended.
-/

namespace ChatterBot

/-- JavaScript `String.prototype.trim`, modelled structurally on the character
list (strip leading and trailing whitespace) so that it evaluates by kernel
reduction. -/
def jsTrim (s : String) : String :=
  String.mk
    (((s.data.dropWhile Char.isWhitespace).reverse.dropWhile
        Char.isWhitespace).reverse)

/-- Whether a string ends in `'/'` (the test of the regex `/\/$/`). -/
def strEndsWithSlash (s : String) : Bool :=
  match s.data.getLast? with
  | some c => c = '/'
  | none => false

/-- JavaScript `String.prototype.startsWith`, modelled structurally. -/
def strStartsWith (s p : String) : Bool :=
  p.data.isPrefixOf s.data

/-- JavaScript coercion `x || d` applied to an optional string: `undefined`,
`null` and the empty string are falsy, so each of them yields the default.
Used for `response.text || ...`, `content || ...` and `name || ...` in the
source. -/
def jsOr (o : Option String) (d : String) : String :=
  match o with
  | none => d
  | some s => if s = "" then d else s

/-- The `ModelProvider` type from `src/unnamed/part_000` line 50: cloud (gemini) or a
local OpenAI-compatible server. -/
inductive Provider where
  | gemini
  | local
deriving DecidableEq, Repr

/-- The `useConfig` store state (`src/unnamed/part_000` lines 52-66). -/
structure ConfigState where
  provider : Provider
  localEndpoint : String
  localModelId : String
deriving DecidableEq, Repr

/-- The setter `setProvider` of the config store: `set({ provider })` merges the one key
into the state. -/
def setProvider (s : ConfigState) (p : Provider) : ConfigState :=
  { s with provider := p }

/-- The setter `setLocalEndpoint` of the config store. -/
def setLocalEndpoint (s : ConfigState) (e : String) : ConfigState :=
  { s with localEndpoint := e }

/-- The setter `setLocalModelId` of the config store. -/
def setLocalModelId (s : ConfigState) (id : String) : ConfigState :=
  { s with localModelId := id }

/-- Message roles of `ChatMessage` (`'user' | 'model'`). -/
inductive Role where
  | user
  | model
deriving DecidableEq, Repr

/-- An attachment `{ name, type, data }` with base64 `data`
(`src/unnamed/part_000` line 37). -/
structure Attachment where
  name : String
  type : String
  data : String
deriving DecidableEq, Repr

/-- The `ChatMessage` record (`src/unnamed/part_000` lines 33-39); the `Date` timestamp is
modelled as a natural number, `groundingChunks` as an optional list of opaque
strings (`any[]` in the source, possibly absent). -/
structure ChatMessage where
  role : Role
  text : String
  timestamp : Nat
  attachments : List Attachment := []
  groundingChunks : Option (List String) := none
deriving DecidableEq, Repr

/-- Modelled from the spec: the `Agent` persona record imported from
`./presets/agents`, a file absent from the sources. Per spec section 3 it is
`{ id (unique), name, systemPromptFragment, voice/visual settings }`. -/
structure Agent where
  id : String
  name : String
  personality : String
  voice : String
deriving DecidableEq, Repr

/-- A `Partial<Agent>` value: each present key overrides the corresponding
field on spread (`{ ...agent, ...adjustments }`). -/
structure AgentPatch where
  id : Option String := none
  name : Option String := none
  personality : Option String := none
  voice : Option String := none
deriving DecidableEq, Repr

/-- The JavaScript object spread `{ ...agent, ...adjustments }`. -/
def applyPatch (a : Agent) (p : AgentPatch) : Agent :=
  { id := p.id.getD a.id
    name := p.name.getD a.name
    personality := p.personality.getD a.personality
    voice := p.voice.getD a.voice }

/-- The `useAgent` store state (`src/unnamed/part_000` lines 79-113). `current`
is typed `Agent` in TypeScript but can become `undefined` at runtime (see
`setCurrent`), so it is modelled as an `Option`. -/
structure AgentState where
  current : Option Agent
  availablePresets : List Agent
  availablePersonal : List Agent
deriving DecidableEq, Repr

/-- The lookup `getAgentById` (`src/unnamed/part_000` lines 71-77): first-match search
over the personal list, falling back (`||`) to the preset list; `undefined`
when neither matches. -/
def getAgentById (s : AgentState) (id : String) : Option Agent :=
  match s.availablePersonal.find? (fun a => a.id == id) with
  | some a => some a
  | none => s.availablePresets.find? (fun a => a.id == id)

/-- The action `setCurrent` (`src/unnamed/part_000` lines 97-98):
`set({ current: typeof agent === 'string' ? getAgentById(agent) : agent })`.
zustand's `set` merges the partial object with `Object.assign`, which copies a
key even when its value is `undefined`; hence when the id resolves to nothing,
`current` is overwritten with `undefined` (here: `none`). -/
def setCurrent (s : AgentState) (agent : Agent ⊕ String) : AgentState :=
  match agent with
  | Sum.inl a => { s with current := some a }
  | Sum.inr id => { s with current := getAgentById s id }

/-- The action `addAgent` (`src/unnamed/part_000` lines 91-96). -/
def addAgent (s : AgentState) (a : Agent) : AgentState :=
  { s with availablePersonal := s.availablePersonal ++ [a], current := some a }

/-- The action `update` (`src/unnamed/part_000` lines 99-112). Returns `none` for the one
path on which the source throws: when the id resolves but `state.current` is
`undefined`, `state.current.id` raises a TypeError inside the `set` callback
before any update is applied. Otherwise returns the updated state. -/
def update (s : AgentState) (agentId : String) (p : AgentPatch) :
    Option AgentState :=
  match getAgentById s agentId with
  | none => some s
  | some agent =>
    let updatedAgent := applyPatch agent p
    match s.current with
    | none => none
    | some c =>
      some { s with
        availablePresets :=
          s.availablePresets.map (fun a => if a.id = agentId then updatedAgent else a)
        availablePersonal :=
          s.availablePersonal.map (fun a => if a.id = agentId then updatedAgent else a)
        current := some (if c.id = agentId then updatedAgent else c) }

/-- One entry of the OpenAI-style `messages` array sent to the local server. -/
structure OAMessage where
  role : String
  content : String
deriving DecidableEq, Repr

/-- The JSON body and URL of the local `fetch` POST
(`src/unnamed/part_000` lines 250-265). -/
structure LocalRequest where
  url : String
  model : String
  messages : List OAMessage
  temperature : ℚ
deriving DecidableEq, Repr

/-- One content part of the cloud payload: a text part or an inline binary
(`inlineData`) part with mime type and base64 data. -/
inductive Part where
  | text (s : String)
  | inlineData (mimeType : String) (data : String)
deriving DecidableEq, Repr

/-- One element of the cloud `contents` array: `{ role, parts }`. -/
structure CloudContent where
  role : String
  parts : List Part
deriving DecidableEq, Repr

/-- The cloud `generateContent` call's arguments
(`src/unnamed/part_000` lines 232-236). -/
structure CloudRequest where
  model : String
  contents : List CloudContent
  systemInstruction : String
  googleSearch : Bool
deriving DecidableEq, Repr

/-- The one outbound request a dispatch builds: cloud SDK call or local POST. -/
inductive OutboundRequest where
  | cloud (r : CloudRequest)
  | localPost (r : LocalRequest)
deriving DecidableEq, Repr

/-- Outcome of the single awaited network call of one dispatch, supplied as an
input to the embedding. `ok content grounding` models a response whose reply
text field (`response.text` for cloud, `choices?.[0]?.message?.content` for
local) is `content` (`none` = absent, `some ""` = present but empty) and whose
grounding chunk list is `grounding`; `fail` models the call throwing. -/
inductive NetOutcome where
  | ok (content : Option String) (grounding : Option (List String))
  | fail
deriving DecidableEq, Repr

/-- The state `sendMessage` reads and writes: the `useUser` name, the
`useConfig` fields, the `useUI` message log and coding-mode flag, and the
component's `input`, `loading` and `attachments` hooks. -/
structure AppState where
  userName : String
  provider : Provider
  localEndpoint : String
  localModelId : String
  isCodingMode : Bool
  chatMessages : List ChatMessage
  input : String
  loading : Bool
  attachments : List Attachment
deriving DecidableEq, Repr

/-- The system instruction (`src/unnamed/part_000` lines 216-218):
coding-agent prompt in coding mode, else a personalized prompt interpolating
`${name || 'the user'}`. -/
def systemInstruction (isCodingMode : Bool) (name : String) : String :=
  if isCodingMode then
    "You are an anonymous coding agent. You are elite, pithy, and focused on executing and debugging complex code."
  else
    "You are a helpful personal assistant helping " ++ jsOr (some name) ("the user") ++ "."

/-- The expression `localEndpoint.replace(/\/$/, '')`: the regex matches one trailing slash,
so at most one is removed. -/
def stripTrailingSlash (s : String) : String :=
  if strEndsWithSlash s then String.mk s.data.dropLast else s

/-- The cloud content parts (`src/unnamed/part_000` lines 223-230): start from
the single text part; each image-typed attachment pushes an `inlineData` part,
each other attachment appends `\n[Attached File: name]` to the text part, which
stays first. -/
def buildParts (input : String) (atts : List Attachment) : List Part :=
  let folded := atts.foldl
    (fun (acc : String × List Part) att =>
      if strStartsWith att.type ("image/") then
        (acc.1, acc.2 ++ [Part.inlineData att.type att.data])
      else
        (acc.1 ++ "\n[Attached File: " ++ att.name ++ "]", acc.2))
    (input, [])
  Part.text folded.1 :: folded.2

/-- Role mapping of the local branch: `m.role === 'user' ? 'user' : 'assistant'`. -/
def roleToOpenAI (r : Role) : String :=
  match r with
  | Role.user => "user"
  | Role.model => "assistant"

/-- The dispatcher `sendMessage` (`src/unnamed/part_000` lines 199-286). Returns the state
after the dispatch finished and the outbound request it built (`none` when the
precondition guard returned early). `now1` is the timestamp of the optimistic
user message, `now2` of the reply message. The local branch replays the
`chatMessages` closure snapshot, i.e. the history before the current user
message was appended. -/
def sendMessage (s : AppState) (now1 now2 : Nat) (outcome : NetOutcome) :
    AppState × Option OutboundRequest :=
  if (jsTrim s.input = "" ∧ s.attachments = []) ∨ s.loading = true then
    (s, none)
  else
    let userMsg : ChatMessage :=
      { role := Role.user, text := s.input, timestamp := now1,
        attachments := s.attachments, groundingChunks := none }
    let s1 : AppState :=
      { s with chatMessages := s.chatMessages ++ [userMsg],
               input := "", attachments := [], loading := true }
    let sysIns := systemInstruction s.isCodingMode s.userName
    match s.provider with
    | Provider.gemini =>
      let req : CloudRequest :=
        { model := "gemini-3-pro-preview"
          contents := [{ role := "user", parts := buildParts s.input s.attachments }]
          systemInstruction := sysIns
          googleSearch := s.isCodingMode }
      let reply : ChatMessage :=
        match outcome with
        | NetOutcome.ok content grounding =>
          { role := Role.model, text := jsOr content ("Empty response"),
            timestamp := now2, attachments := [], groundingChunks := grounding }
        | NetOutcome.fail =>
          { role := Role.model,
            text := "Network Error: Verify that your API Key is valid.",
            timestamp := now2, attachments := [], groundingChunks := none }
      ({ s1 with chatMessages := s1.chatMessages ++ [reply], loading := false },
       some (OutboundRequest.cloud req))
    | Provider.local =>
      let req : LocalRequest :=
        { url := stripTrailingSlash s.localEndpoint ++ "/chat/completions"
          model := s.localModelId
          messages :=
            { role := "system", content := sysIns } ::
              (s.chatMessages.map fun m =>
                { role := roleToOpenAI m.role, content := m.text }) ++
              [{ role := "user", content := s.input }]
          temperature := 7 / 10 }
      let reply : ChatMessage :=
        match outcome with
        | NetOutcome.ok content _ =>
          { role := Role.model, text := jsOr content ("Local engine error."),
            timestamp := now2, attachments := [], groundingChunks := none }
        | NetOutcome.fail =>
          { role := Role.model,
            text := "Network Error: Verify that your local server is running and CORS is enabled.",
            timestamp := now2, attachments := [], groundingChunks := none }
      ({ s1 with chatMessages := s1.chatMessages ++ [reply], loading := false },
       some (OutboundRequest.localPost req))

/-- A sample agent used to instantiate registry theorems; the real preset file
is absent from the sources, so concrete agents are arbitrary. -/
def sampleAgent : Agent :=
  { id := "paul", name := "Paul", personality := "calm", voice := "baritone" }

/-- A sample registry state: one preset, no personal agents, the preset is
current (the shape of the store's initial state). -/
def sampleAgentState : AgentState :=
  { current := some sampleAgent
    availablePresets := [sampleAgent]
    availablePersonal := [] }

/-- C1 counterexample: at a concrete registry state, `setCurrent` with an id
matching no agent does NOT leave `current` unchanged — zustand merges the
explicitly-`undefined` key, clearing `current`. -/
theorem C1_counterexample :
    ¬ (setCurrent sampleAgentState (Sum.inr ("nonexistent-id"))).current
        = sampleAgentState.current := by
  decide

/-- C1 (amended): for every registry state and every id matching no agent in
the personal or preset list, `setCurrent` with that id overwrites `current`
with `undefined` (clears the current agent) rather than leaving it unchanged. -/
theorem C1_setCurrent_unknown_id_clears_current (s : AgentState) (id : String)
    (h : getAgentById s id = none) :
    (setCurrent s (Sum.inr id)).current = none := by
  simp [setCurrent, h]

/-- C1 witness: the amended theorem applied at the sample state. -/
theorem C1_witness :
    (setCurrent sampleAgentState (Sum.inr ("nonexistent-id"))).current = none :=
  C1_setCurrent_unknown_id_clears_current sampleAgentState ("nonexistent-id")
    (by decide)

/-- C4: whenever the guard holds — the input is empty or whitespace-only and
there is no attachment, or a send is already in flight — `sendMessage`
returns the state unchanged and builds no outbound request, hence appends no
message and leaves input, attachments and the loading flag untouched. -/
theorem C4_send_precondition_noop (s : AppState) (n1 n2 : Nat) (o : NetOutcome)
    (h : (jsTrim s.input = "" ∧ s.attachments = []) ∨ s.loading = true) :
    sendMessage s n1 n2 o = (s, none) := by
  unfold sendMessage
  rw [if_pos h]

/-- A concrete state with a send already in flight (`loading = true`). -/
def stateC4 : AppState :=
  { userName := "", provider := Provider.gemini,
    localEndpoint := "http://localhost:11434/v1", localModelId := "llama3",
    isCodingMode := false, chatMessages := [], input := "hello",
    loading := true, attachments := [] }

/-- C4 witness: a state with `loading = true` triggers the no-op. -/
theorem C4_witness :
    sendMessage stateC4 0 1 NetOutcome.fail = (stateC4, none) :=
  C4_send_precondition_noop stateC4 0 1 NetOutcome.fail (Or.inr rfl)

/-- The concrete state of the spec's local-dispatch test property: provider
local, endpoint with a trailing slash, empty history, input `"hello"`. -/
def stateC5 : AppState :=
  { userName := "", provider := Provider.local,
    localEndpoint := "http://localhost:11434/v1/", localModelId := "llama3",
    isCodingMode := false, chatMessages := [], input := "hello",
    loading := false, attachments := [] }

/-- C5: with provider local and endpoint `http://localhost:11434/v1/`, the
dispatch POSTs to `http://localhost:11434/v1/chat/completions` (the one
trailing slash stripped, no double slash), and a response whose
`choices[0].message.content` is `"hi"` yields an appended model-role message
with text `"hi"`. -/
theorem C5_local_url_and_reply :
    (sendMessage stateC5 0 1 (NetOutcome.ok (some ("hi")) none)).2 =
      some (OutboundRequest.localPost
        { url := "http://localhost:11434/v1/chat/completions"
          model := "llama3"
          messages :=
            [{ role := "system",
               content := "You are a helpful personal assistant helping the user." },
             { role := "user", content := "hello" }]
          temperature := 7 / 10 }) ∧
    (sendMessage stateC5 0 1 (NetOutcome.ok (some ("hi")) none)).1.chatMessages =
      [{ role := Role.user, text := "hello", timestamp := 0,
         attachments := [], groundingChunks := none },
       { role := Role.model, text := "hi", timestamp := 1,
         attachments := [], groundingChunks := none }] := by
  constructor <;> rfl

/-- C8: `setProvider` changes only the `provider` field; `localEndpoint` and
`localModelId` are untouched, and toggling the provider back restores a state
with the original endpoint and model id. -/
theorem C8_setProvider_frame (s : ConfigState) (p : Provider) :
    (setProvider s p).provider = p ∧
    (setProvider s p).localEndpoint = s.localEndpoint ∧
    (setProvider s p).localModelId = s.localModelId ∧
    setProvider (setProvider s p) s.provider = s := by
  refine ⟨rfl, rfl, rfl, rfl⟩

/-- C2: whenever the dispatch guard passes, `sendMessage` ends with the
loading flag false on every exit path (cloud/local crossed with
success/failure), and the transcript grows by exactly the optimistic user
message plus one model-role message — failures included, which are surfaced as
that appended model message rather than escaping the embedding (the function
is total and returns normally on the failure outcomes). -/
theorem C2_send_releases_loading_and_surfaces_failures (s : AppState)
    (n1 n2 : Nat) (o : NetOutcome)
    (h : ¬ ((jsTrim s.input = "" ∧ s.attachments = []) ∨ s.loading = true)) :
    (sendMessage s n1 n2 o).1.loading = false ∧
    ∃ m : ChatMessage, m.role = Role.model ∧
      (sendMessage s n1 n2 o).1.chatMessages =
        s.chatMessages ++
          [{ role := Role.user, text := s.input, timestamp := n1,
             attachments := s.attachments, groundingChunks := none }, m] := by
  unfold sendMessage
  rw [if_neg h]
  cases hp : s.provider
  · cases o with
    | ok content grounding =>
      exact ⟨rfl, { role := Role.model,
                    text := jsOr content ("Empty response"),
                    timestamp := n2, attachments := [],
                    groundingChunks := grounding },
        rfl, by simp⟩
    | fail =>
      exact ⟨rfl, { role := Role.model,
                    text := "Network Error: Verify that your API Key is valid.",
                    timestamp := n2, attachments := [],
                    groundingChunks := none },
        rfl, by simp⟩
  · cases o with
    | ok content grounding =>
      exact ⟨rfl, { role := Role.model,
                    text := jsOr content ("Local engine error."),
                    timestamp := n2, attachments := [],
                    groundingChunks := none },
        rfl, by simp⟩
    | fail =>
      exact ⟨rfl, { role := Role.model,
                    text := "Network Error: Verify that your local server is running and CORS is enabled.",
                    timestamp := n2, attachments := [],
                    groundingChunks := none },
        rfl, by simp⟩

/-- A concrete state passing the guard: cloud provider, nonempty input, not
loading. -/
def stateC2 : AppState :=
  { userName := "Ada", provider := Provider.gemini,
    localEndpoint := "http://localhost:11434/v1", localModelId := "llama3",
    isCodingMode := false, chatMessages := [], input := "hey",
    loading := false, attachments := [] }

/-- C2 witness: the theorem applied at a concrete state with a failing cloud
call. -/
theorem C2_witness :
    (sendMessage stateC2 0 1 NetOutcome.fail).1.loading = false ∧
    ∃ m : ChatMessage, m.role = Role.model ∧
      (sendMessage stateC2 0 1 NetOutcome.fail).1.chatMessages =
        stateC2.chatMessages ++
          [{ role := Role.user, text := stateC2.input, timestamp := 0,
             attachments := stateC2.attachments, groundingChunks := none }, m] :=
  C2_send_releases_loading_and_surfaces_failures stateC2 0 1 NetOutcome.fail
    (by decide)

/-- C6: whenever the guard passes and the provider is local, the POST body has
the configured model id, temperature 0.7, and a messages list that starts with
the system instruction under role `system`, replays every prior stored message
in order (role user→user, model→assistant, content = stored text), and ends
with the new user text under role `user`. -/
theorem C6_local_request_body (s : AppState) (n1 n2 : Nat) (o : NetOutcome)
    (h : ¬ ((jsTrim s.input = "" ∧ s.attachments = []) ∨ s.loading = true))
    (hp : s.provider = Provider.local) :
    roleToOpenAI Role.user = "user" ∧
    roleToOpenAI Role.model = "assistant" ∧
    (sendMessage s n1 n2 o).2 = some (OutboundRequest.localPost
      { url := stripTrailingSlash s.localEndpoint ++ "/chat/completions"
        model := s.localModelId
        messages :=
          { role := "system",
            content := systemInstruction s.isCodingMode s.userName } ::
            (s.chatMessages.map fun m =>
              { role := roleToOpenAI m.role, content := m.text }) ++
            [{ role := "user", content := s.input }]
        temperature := 7 / 10 }) := by
  refine ⟨rfl, rfl, ?_⟩
  unfold sendMessage
  rw [if_neg h, hp]

/-- A concrete local-provider state with one prior exchange in the history. -/
def stateC6 : AppState :=
  { userName := "", provider := Provider.local,
    localEndpoint := "http://localhost:8000/v1", localModelId := "phi3",
    isCodingMode := false,
    chatMessages :=
      [{ role := Role.user, text := "hey", timestamp := 0,
         attachments := [], groundingChunks := none },
       { role := Role.model, text := "hello!", timestamp := 1,
         attachments := [], groundingChunks := none }],
    input := "how are you?", loading := false, attachments := [] }

/-- C6 witness: the theorem applied at a state with a two-message history. -/
theorem C6_witness :
    roleToOpenAI Role.user = "user" ∧
    roleToOpenAI Role.model = "assistant" ∧
    (sendMessage stateC6 2 3 (NetOutcome.ok (some ("fine")) none)).2 =
      some (OutboundRequest.localPost
        { url := stripTrailingSlash stateC6.localEndpoint ++ "/chat/completions"
          model := stateC6.localModelId
          messages :=
            { role := "system",
              content := systemInstruction stateC6.isCodingMode stateC6.userName } ::
              (stateC6.chatMessages.map fun m =>
                { role := roleToOpenAI m.role, content := m.text }) ++
              [{ role := "user", content := stateC6.input }]
          temperature := 7 / 10 }) :=
  C6_local_request_body stateC6 2 3 (NetOutcome.ok (some ("fine")) none)
    (by decide) rfl

/-- C9: whenever the guard passes and the provider is cloud, the outbound
`contents` array is exactly one user-role entry built from the current input
and attachments, and the request is unchanged under any replacement of the
stored conversation history — prior messages are never included in the cloud
payload. -/
theorem C9_cloud_request_single_user_entry (s : AppState) (n1 n2 : Nat)
    (o : NetOutcome)
    (h : ¬ ((jsTrim s.input = "" ∧ s.attachments = []) ∨ s.loading = true))
    (hp : s.provider = Provider.gemini) :
    (sendMessage s n1 n2 o).2 = some (OutboundRequest.cloud
      { model := "gemini-3-pro-preview"
        contents := [{ role := "user", parts := buildParts s.input s.attachments }]
        systemInstruction := systemInstruction s.isCodingMode s.userName
        googleSearch := s.isCodingMode }) ∧
    ∀ msgs : List ChatMessage,
      (sendMessage { s with chatMessages := msgs } n1 n2 o).2 =
        (sendMessage s n1 n2 o).2 := by
  cases s with
  | mk un pv ep mid ic cm inp ld att =>
    subst hp
    constructor
    · unfold sendMessage
      rw [if_neg h]
    · intro msgs
      unfold sendMessage
      rw [if_neg h, if_neg h]

/-- C9 witness: the theorem applied at a concrete cloud-provider state. -/
theorem C9_witness :
    (sendMessage stateC2 0 1 (NetOutcome.ok (some ("hello")) none)).2 =
      some (OutboundRequest.cloud
        { model := "gemini-3-pro-preview"
          contents := [{ role := "user",
                         parts := buildParts stateC2.input stateC2.attachments }]
          systemInstruction := systemInstruction stateC2.isCodingMode stateC2.userName
          googleSearch := stateC2.isCodingMode }) ∧
    ∀ msgs : List ChatMessage,
      (sendMessage { stateC2 with chatMessages := msgs } 0 1
          (NetOutcome.ok (some ("hello")) none)).2 =
        (sendMessage stateC2 0 1 (NetOutcome.ok (some ("hello")) none)).2 :=
  C9_cloud_request_single_user_entry stateC2 0 1
    (NetOutcome.ok (some ("hello")) none) (by decide) rfl

/-- C10: whenever the guard passes and the provider is local, a response whose
`choices[0].message.content` is present but empty yields the placeholder text
`Local engine error.` in the appended model-role message — the `||`
substitution fires on any falsy value, not only on an absent field. -/
theorem C10_local_empty_content_placeholder (s : AppState) (n1 n2 : Nat)
    (h : ¬ ((jsTrim s.input = "" ∧ s.attachments = []) ∨ s.loading = true))
    (hp : s.provider = Provider.local) :
    (sendMessage s n1 n2 (NetOutcome.ok (some ("")) none)).1.chatMessages =
      s.chatMessages ++
        [{ role := Role.user, text := s.input, timestamp := n1,
           attachments := s.attachments, groundingChunks := none },
         { role := Role.model, text := "Local engine error.", timestamp := n2,
           attachments := [], groundingChunks := none }] := by
  unfold sendMessage
  rw [if_neg h, hp]
  simp [jsOr]

/-- C10 witness: the theorem applied at the concrete local state. -/
theorem C10_witness :
    (sendMessage stateC6 2 3 (NetOutcome.ok (some ("")) none)).1.chatMessages =
      stateC6.chatMessages ++
        [{ role := Role.user, text := stateC6.input, timestamp := 2,
           attachments := stateC6.attachments, groundingChunks := none },
         { role := Role.model, text := "Local engine error.", timestamp := 3,
           attachments := [], groundingChunks := none }] :=
  C10_local_empty_content_placeholder stateC6 2 3 (by decide) rfl

/-- C7: in cloud mode, sending text `describe these` with one image-typed and
one non-image attachment (in either order) builds content parts consisting of
exactly the text part — the input suffixed with the non-image file's name in
brackets — plus one `inlineData` part carrying the image's mime type and
base64 data; the non-image attachment's data appears in no part. -/
theorem C7_cloud_mixed_attachment_parts (s : AppState) (n1 n2 : Nat)
    (o : NetOutcome) (img file : Attachment)
    (hp : s.provider = Provider.gemini)
    (himg : strStartsWith img.type ("image/") = true)
    (hfile : strStartsWith file.type ("image/") = false)
    (hin : s.input = "describe these")
    (hatt : s.attachments = [img, file] ∨ s.attachments = [file, img])
    (hl : s.loading = false) :
    ∃ r : CloudRequest,
      (sendMessage s n1 n2 o).2 = some (OutboundRequest.cloud r) ∧
      r.contents = [{ role := "user",
                      parts := [Part.text ("describe these" ++
                                  "\n[Attached File: " ++ file.name ++ "]"),
                                Part.inlineData img.type img.data] }] := by
  have hne : ¬ (jsTrim ("describe these") = "") := by decide
  have h : ¬ ((jsTrim s.input = "" ∧ s.attachments = []) ∨ s.loading = true) := by
    rw [hin, hl]
    intro hc
    rcases hc with ⟨h1, _⟩ | h2
    · exact hne h1
    · exact Bool.noConfusion h2
  refine ⟨{ model := "gemini-3-pro-preview"
            contents := [{ role := "user",
                           parts := buildParts s.input s.attachments }]
            systemInstruction := systemInstruction s.isCodingMode s.userName
            googleSearch := s.isCodingMode }, ?_, ?_⟩
  · unfold sendMessage
    rw [if_neg h]
    cases hps : s.provider
    · rfl
    · rw [hp] at hps
      exact Provider.noConfusion hps
  · rcases hatt with h4 | h4 <;>
      simp [buildParts, hin, h4, himg, hfile]

/-- A cloud-provider state holding one image and one non-image attachment. -/
def stateC7 : AppState :=
  { userName := "", provider := Provider.gemini,
    localEndpoint := "http://localhost:11434/v1", localModelId := "llama3",
    isCodingMode := false, chatMessages := [], input := "describe these",
    loading := false,
    attachments :=
      [{ name := "cat.png", type := "image/png", data := "QUJD" },
       { name := "notes.txt", type := "text/plain", data := "ZGVm" }] }

/-- C7 witness: the theorem applied at the concrete two-attachment state. -/
theorem C7_witness :
    ∃ r : CloudRequest,
      (sendMessage stateC7 0 1 (NetOutcome.ok (some ("ok")) none)).2 =
        some (OutboundRequest.cloud r) ∧
      r.contents = [{ role := "user",
                      parts := [Part.text ("describe these" ++
                                  "\n[Attached File: " ++ "notes.txt" ++ "]"),
                                Part.inlineData ("image/png") ("QUJD")] }] :=
  C7_cloud_mixed_attachment_parts stateC7 0 1 (NetOutcome.ok (some ("ok")) none)
    { name := "cat.png", type := "image/png", data := "QUJD" }
    { name := "notes.txt", type := "text/plain", data := "ZGVm" }
    rfl (by decide) (by decide) rfl (Or.inl rfl) rfl

/-- C3: when the id resolves to an agent and `current` is populated, `update`
succeeds in a single state transition after which every position of the preset
list and of the personal list holding that id, and `current` when it holds
that id, all carry the same merged agent `applyPatch a p`
(`{ ...agent, ...adjustments }`). -/
theorem C3_update_propagates_everywhere (s : AgentState) (agentId : String)
    (p : AgentPatch) (a c : Agent)
    (h1 : getAgentById s agentId = some a) (h2 : s.current = some c) :
    ∃ s', update s agentId p = some s' ∧
      (∀ i : Nat, ∀ x : Agent, s.availablePresets[i]? = some x →
        x.id = agentId → s'.availablePresets[i]? = some (applyPatch a p)) ∧
      (∀ i : Nat, ∀ x : Agent, s.availablePersonal[i]? = some x →
        x.id = agentId → s'.availablePersonal[i]? = some (applyPatch a p)) ∧
      (c.id = agentId → s'.current = some (applyPatch a p)) := by
  refine ⟨_, by rw [update, h1, h2], ?_, ?_, ?_⟩
  · intro i x hx hid
    simp [List.getElem?_map, hx, hid]
  · intro i x hx hid
    simp [List.getElem?_map, hx, hid]
  · intro hid
    simp [hid]

/-- A second preset sharing nothing with `sampleAgent`, for the C3 witness. -/
def sampleAgent2 : Agent :=
  { id := "penny", name := "Penny", personality := "upbeat", voice := "alto" }

/-- A registry state where `paul` occurs in the preset list, in the personal
list and as `current`. -/
def stateC3 : AgentState :=
  { current := some sampleAgent
    availablePresets := [sampleAgent, sampleAgent2]
    availablePersonal := [sampleAgent] }

/-- C3 witness: updating `paul`'s name propagates the same merged agent to the
preset list, the personal list and `current`. -/
theorem C3_witness :
    ∃ s', update stateC3 ("paul") { name := some ("Paula") } = some s' ∧
      (∀ i : Nat, ∀ x : Agent, stateC3.availablePresets[i]? = some x →
        x.id = "paul" → s'.availablePresets[i]? =
          some (applyPatch sampleAgent { name := some ("Paula") })) ∧
      (∀ i : Nat, ∀ x : Agent, stateC3.availablePersonal[i]? = some x →
        x.id = "paul" → s'.availablePersonal[i]? =
          some (applyPatch sampleAgent { name := some ("Paula") })) ∧
      (sampleAgent.id = "paul" → s'.current =
        some (applyPatch sampleAgent { name := some ("Paula") })) :=
  C3_update_propagates_everywhere stateC3 ("paul") { name := some ("Paula") }
    sampleAgent sampleAgent (by decide) rfl

end ChatterBot
